import Mathlib

/-!
Shallow embedding of the `frontend-chatpp` chat client
(`src/components/ChatApp.tsx`, `src/components/AuthForm.tsx`) together with
the small pieces of the server-side core (Message Store validation and
reaction state) that the repository's specification describes but whose code
is not part of the repository.

Modelling conventions:
* JavaScript `number` fields are modelled as `Int`; optional fields
  (`field?: T`) as `Option T`, with `none` standing for both `undefined`
  and `null` (the client never distinguishes them in the modelled paths).
* JavaScript truthiness tests on such fields are modelled faithfully:
  `!x` on an optional number is true for `none` and for `some 0`;
  `x || null` on an optional number collapses `some 0` to `none`;
  truthiness of an optional string is false for `none` and `some ""`.
* The nested optional `replyTo?: ChatMessage` field is unrolled one level
  into `ReplyInfo`, which carries exactly the fields the client ever reads
  from a reply preview; no modelled code path inspects deeper nesting.
* The WebSocket `onmessage` handler becomes a pure transition function on
  the displayed client state; the `catch` fallback for unparseable frames
  becomes a separate transition taking the raw payload and the values the
  handler samples from the clock (`Date.now()`, `toISOString()`).
-/

namespace ChatPP

/-- `User` record (`{id, username, email}`) from `ChatApp.tsx`. -/
structure User where
  id : Int
  username : String
  email : String
deriving Repr, DecidableEq

/-- `Reaction` record (`{emoji, users}`) from `ChatApp.tsx`. -/
structure Reaction where
  emoji : String
  users : List String
deriving Repr, DecidableEq

/-- The `messageType` union `'text' | 'image' | 'video' | 'file'`. -/
inductive MessageType where
  | text
  | image
  | video
  | file
deriving Repr, DecidableEq

/-- One-level unrolling of the recursive optional `replyTo?: ChatMessage`
field: the fields the client reads from a replied-to message
(`renderReplyPreview` reads `user`, `content`, `messageType`; `sendMessage`
reads `id`). -/
structure ReplyInfo where
  id : Option String
  user : User
  content : String
  messageType : Option MessageType
deriving Repr, DecidableEq

/-- `ChatMessage` record from `ChatApp.tsx` (second, full-featured
revision).  Optional fields are `Option`; `recipientUsername` and
`recipientEmail` are carried for completeness. -/
structure ChatMessage where
  id : Option String
  user : User
  content : String
  created_at : String
  messageType : Option MessageType
  fileUrl : Option String
  fileName : Option String
  fileSize : Option Int
  replyTo : Option ReplyInfo
  recipientId : Option Int
  recipientUsername : Option String
  recipientEmail : Option String
  reactions : Option (List Reaction)
deriving Repr, DecidableEq

/-- The `ServerEvent` union of `ChatApp.tsx`. -/
inductive ServerEvent where
  | boot (messages : List ChatMessage) (online_users : List User)
  | message (m : ChatMessage)
  | online_users (us : List User)
  | reaction (messageId : String) (r : Reaction)
  | delete (messageId : String)
  | error (s : String)
deriving Repr, DecidableEq

/-- The conversation state the `ws.onmessage` closure captures:
the authenticated user (the effect installing the handler only runs when
`user` is non-null), `isDirectMessage` and `selectedUser`. -/
structure ConvState where
  currentUser : User
  isDirectMessage : Bool
  selectedUser : Option User
deriving Repr, DecidableEq

/-- The displayed client state the handler updates:
the `messages` and `onlineUsers` React state variables. -/
structure ClientState where
  messages : List ChatMessage
  onlineUsers : List User
deriving Repr, DecidableEq

/-- `String.prototype.trim()`: strip whitespace from both ends, modelled
executably over the character list (the `\s` class is modelled as
`Char.isWhitespace`). -/
def jsTrim (s : String) : String :=
  String.mk (((s.toList.dropWhile Char.isWhitespace).reverse.dropWhile
    Char.isWhitespace).reverse)

/-- JavaScript falsiness of an optional number: `!x` is true for
`undefined`, `null` and `0`.  Used by the `!msg.recipientId` tests. -/
def jsFalsyNum : Option Int → Bool
  | none => true
  | some n => n == 0

/-- The predicate of the boot branch of `ws.onmessage`
(`ChatApp.tsx` lines 408-424): when `isDirectMessage && selectedUser`,
keep messages between the current user and the selected user; otherwise
keep messages with falsy `recipientId`. -/
def bootAccept (st : ConvState) (msg : ChatMessage) : Bool :=
  if st.isDirectMessage && st.selectedUser.isSome then
    (msg.user.id == st.currentUser.id && msg.recipientId == st.selectedUser.map User.id)
      || (some msg.user.id == st.selectedUser.map User.id
            && msg.recipientId == some st.currentUser.id)
  else
    jsFalsyNum msg.recipientId

/-- The predicate of the `message` branch of `ws.onmessage`
(`ChatApp.tsx` lines 425-440): when `isDirectMessage` (regardless of
`selectedUser`), the pair test against `selectedUser?.id`; otherwise the
falsiness test `!message.recipientId`. -/
def msgAccept (st : ConvState) (msg : ChatMessage) : Bool :=
  if st.isDirectMessage then
    (msg.user.id == st.currentUser.id && msg.recipientId == st.selectedUser.map User.id)
      || (some msg.user.id == st.selectedUser.map User.id
            && msg.recipientId == some st.currentUser.id)
  else
    jsFalsyNum msg.recipientId

/-- The `try` part of `ws.onmessage` on a successfully parsed
`ServerEvent` (`ChatApp.tsx` lines 402-457), as a pure transition on the
displayed client state. -/
def handleEvent (st : ConvState) (cs : ClientState) (ev : ServerEvent) : ClientState :=
  match ev with
  | .boot msgs users =>
      { messages := msgs.filter (bootAccept st), onlineUsers := users }
  | .message m =>
      if msgAccept st m then { cs with messages := cs.messages ++ [m] } else cs
  | .online_users us =>
      { cs with onlineUsers := us }
  | .reaction mid r =>
      { cs with messages := cs.messages.map (fun msg =>
          if msg.id == some mid then
            { msg with reactions := some ((msg.reactions.getD []) ++ [r]) }
          else msg) }
  | .delete mid =>
      { cs with messages := cs.messages.filter (fun msg => msg.id != some mid) }
  | .error _ => cs

/-- The `catch` fallback of `ws.onmessage` (`ChatApp.tsx` lines 458-474)
for a frame whose payload failed to parse as JSON: `raw` is the payload,
`nowMs` the sampled `Date.now()`, `nowIso` the sampled
`new Date().toISOString()`. -/
def handleRaw (st : ConvState) (cs : ClientState) (raw : String)
    (nowMs : Nat) (nowIso : String) : ClientState :=
  let _ := st
  let asText := raw
  if (jsTrim asText).length > 0 then
    { cs with messages := cs.messages ++ [{
        id := some (toString nowMs)
        user := { id := 0, username := "System", email := "system" }
        content := asText
        created_at := nowIso
        messageType := some MessageType.text
        fileUrl := none, fileName := none, fileSize := none
        replyTo := none, recipientId := none
        recipientUsername := none, recipientEmail := none
        reactions := none }] }
  else cs

/-- An outbound WebSocket frame: either a raw text payload or the JSON
object the client serialises (`null` field values and absent fields are
both modelled as `none`). -/
inductive Frame where
  | raw (text : String)
  | json (content : String) (replyTo : Option String) (recipientId : Option Int)
      (messageType : Option MessageType) (fileUrl : Option String)
      (fileName : Option String) (fileSize : Option Int)
deriving Repr, DecidableEq

/-- The `content` carried by a frame (a raw frame's whole payload is its
content, per the server's plain-text fallback). -/
def frameContent : Frame → String
  | .raw t => t
  | .json c _ _ _ _ _ _ => c

/-- The `fileUrl` carried by a frame, if any. -/
def frameFileUrl : Frame → Option String
  | .raw _ => none
  | .json _ _ _ _ u _ _ => u

/-- The `recipientId` carried by a frame, if any. -/
def frameRecipientId : Frame → Option Int
  | .raw _ => none
  | .json _ _ r _ _ _ _ => r

/-- The state `sendMessage` / `sendEmojiDirectly` / `handleFileUpload`
read: the input box, the conversation mode, the pending reply, the
selected user and whether the socket is `OPEN`. -/
structure SendState where
  input : String
  isDirectMessage : Bool
  replyTo : Option ChatMessage
  selectedUser : Option User
  socketOpen : Bool
deriving Repr, DecidableEq

/-- `replyTo?.id ? String(replyTo.id) : null`: the replied-to message's
id when the reply is set and its id is a truthy (non-empty) string,
else `null`. -/
def jsReplyToField (replyTo : Option ChatMessage) : Option String :=
  match replyTo with
  | none => none
  | some r =>
      match r.id with
      | none => none
      | some i => if i == "" then none else some i

/-- `selectedUser?.id || null`: the selected user's id when a user is
selected and the id is truthy (non-zero), else `null`. -/
def jsRecipientField (selectedUser : Option User) : Option Int :=
  match selectedUser with
  | none => none
  | some u => if u.id == 0 then none else some u.id

/-- `sendMessage` (`ChatApp.tsx` lines 554-574): `none` when no frame is
sent, otherwise the single frame written to the socket. -/
def sendMessage (st : SendState) : Option Frame :=
  let trimmed := jsTrim st.input
  if trimmed == "" || !st.socketOpen then none
  else if st.isDirectMessage || st.replyTo.isSome then
    some (Frame.json trimmed (jsReplyToField st.replyTo)
      (jsRecipientField st.selectedUser) (some MessageType.text) none none none)
  else
    some (Frame.raw trimmed)

/-- `sendEmojiDirectly` (`ChatApp.tsx` lines 661-676). -/
def sendEmojiDirectly (st : SendState) (emoji : String) : Option Frame :=
  if !st.socketOpen then none
  else if st.isDirectMessage then
    some (Frame.json emoji none (jsRecipientField st.selectedUser)
      (some MessageType.text) none none none)
  else
    some (Frame.raw emoji)

/-- The `{fileUrl, fileName, fileSize}` body of a successful `/upload`
response. -/
structure UploadResponse where
  fileUrl : String
  fileName : String
  fileSize : Int
deriving Repr, DecidableEq

/-- The `messageType` `handleFileUpload` derives from the file's MIME
type. -/
def fileKind (fileType : String) : MessageType :=
  if fileType.startsWith "image/" then MessageType.image
  else if fileType.startsWith "video/" then MessageType.video
  else MessageType.file

/-- The frame `handleFileUpload` (`ChatApp.tsx` lines 576-619) sends
after a successful upload (socket `OPEN` and a `2xx` response carrying
`resp`); `none` when the socket is not open.  The frame carries empty
`content`, the upload metadata, and no `recipientId` field. -/
def handleFileUpload (st : SendState) (resp : UploadResponse)
    (fileType : String) : Option Frame :=
  if !st.socketOpen then none
  else
    some (Frame.json "" (jsReplyToField st.replyTo) none
      (some (fileKind fileType)) (some resp.fileUrl) (some resp.fileName)
      (some resp.fileSize))

/-- The ten quick-send emojis (`commonEmojis` in `ChatApp.tsx`). -/
def commonEmojis : List String :=
  ["👍", "❤️", "😂", "😮", "😢", "😡", "👏", "🙏", "🔥", "💯"]

/-- Modelled from the spec: the Message Store `append` validation
(spec §4.2) — a message fails with `ValidationError` iff its `content`
is empty and it has no `fileUrl`.  The store itself is not part of this
repository; this predicate states the precondition client frames must
satisfy. -/
def storeValid (f : Frame) : Bool :=
  frameContent f != "" || (frameFileUrl f).isSome

/-- Modelled from the spec: the Message Store `addReaction` (spec §4.2,
§3) — one `Reaction` entry per distinct emoji, a given identity appears
at most once in an entry, and re-adding is a no-op.  The store itself is
not part of this repository. -/
def storeAddReaction (reactions : List Reaction) (u : String)
    (emoji : String) : List Reaction :=
  if reactions.any (fun r => r.emoji == emoji) then
    reactions.map (fun r =>
      if r.emoji == emoji then
        { r with users := if u ∈ r.users then r.users else r.users ++ [u] }
      else r)
  else
    reactions ++ [{ emoji := emoji, users := [u] }]

/-- Modelled from the spec: the `reaction` entry for `emoji` that the
Mutation API's `reaction` event carries after an `addReaction` call
(spec §4.5 carries the current reaction state for that emoji). -/
def storeReactionFor (reactions : List Reaction) (emoji : String) : Option Reaction :=
  reactions.find? (fun r => r.emoji == emoji)

/-! ### Concrete example values used by counterexamples and witnesses -/

/-- A sample authenticated user. -/
def userA : User := { id := 1, username := "alice", email := "alice@mail.com" }

/-- A second sample user. -/
def userB : User := { id := 2, username := "bob", email := "bob@mail.com" }

/-- A user whose id is `0` — the value JavaScript truthiness confuses
with `null`/`undefined` (the client itself uses id `0` for its synthetic
System user). -/
def userZero : User := { id := 0, username := "zed", email := "zed@mail.com" }

/-- General-chat conversation state for `userA`. -/
def generalState : ConvState :=
  { currentUser := userA, isDirectMessage := false, selectedUser := none }

/-- Direct-message mode with no selected user. -/
def dmNoSelState : ConvState :=
  { currentUser := userA, isDirectMessage := true, selectedUser := none }

/-- Direct-message conversation of `userA` with `userB`. -/
def dmStateB : ConvState :=
  { currentUser := userA, isDirectMessage := true, selectedUser := some userB }

/-- A plain general-chat message from `userB` (no recipient). -/
def msgFromB : ChatMessage :=
  { id := some "g1", user := userB, content := "hello all", created_at := "t0"
    messageType := some MessageType.text
    fileUrl := none, fileName := none, fileSize := none, replyTo := none
    recipientId := none, recipientUsername := none, recipientEmail := none
    reactions := none }

/-- A message from `userB` whose `recipientId` is present but `0`. -/
def msgRecip0 : ChatMessage :=
  { msgFromB with id := some "g2", recipientId := some 0 }

/-- A general-chat message with id `"m1"` and no reactions yet. -/
def msgM1 : ChatMessage :=
  { msgFromB with id := some "m1" }

/-- Send-state: direct conversation with `userZero`, socket open. -/
def dmZeroState : SendState :=
  { input := "hi", isDirectMessage := true, replyTo := none
    selectedUser := some userZero, socketOpen := true }

/-- The `mode` prop of `AuthForm`. -/
inductive Mode where
  | signin
  | signup
deriving Repr, DecidableEq

/-- The `formData` state of `AuthForm`. -/
structure FormData where
  email : String
  password : String
  username : String
deriving Repr, DecidableEq

/-- The payload `AuthForm` passes to `onSubmit`
(`{email, password, username?}`). -/
structure SubmitData where
  email : String
  password : String
  username : Option String
deriving Repr, DecidableEq

/-- The `\S` character class of the email regex, modelled as
non-whitespace. -/
def nonWs (c : Char) : Bool := !c.isWhitespace

/-- `/\S+@\S+\.\S+/.test(email)`: the unanchored regex matches iff the
string has a `'@'` at position `i` and a `'.'` at position `j ≥ i + 2`
with a non-whitespace character just before the `'@'`, only
non-whitespace characters strictly between them, and a non-whitespace
character just after the `'.'` (each `\S+` absorbs at least one
character; the surrounding text is unconstrained). -/
def emailRegexTest (s : String) : Bool :=
  let cs := s.toList
  let n := cs.length
  (List.range n).any fun i =>
    (List.range n).any fun j =>
      decide (i + 2 ≤ j) && (cs.getD i ' ' == '@') && (cs.getD j ' ' == '.')
        && decide (1 ≤ i) && nonWs (cs.getD (i - 1) ' ')
        && decide (j + 1 < n) && nonWs (cs.getD (j + 1) ' ')
        && ((List.range (j - i - 1)).all fun k => nonWs (cs.getD (i + 1 + k) ' '))

/-- `validateForm` of `AuthForm.tsx` (lines 28-51), as the list of
`(field, message)` entries placed in `newErrors`; validation passes iff
the list is empty. -/
def validateForm (mode : Mode) (fd : FormData) : List (String × String) :=
  (if fd.email == "" then [("email", "Email is required")]
   else if !emailRegexTest fd.email then [("email", "Email is invalid")]
   else [])
  ++ (if fd.password == "" then [("password", "Password is required")]
      else if fd.password.length < 6 then
        [("password", "Password must be at least 6 characters")]
      else [])
  ++ (if mode == Mode.signup && fd.username == "" then
        [("username", "Username is required")]
      else if mode == Mode.signup && fd.username.length < 3 then
        [("username", "Username must be at least 3 characters")]
      else [])

/-- `handleSubmit` of `AuthForm.tsx` (lines 53-61): `some payload` when
`onSubmit` is invoked with `payload`, `none` when validation fails.  In
signup mode the payload carries the username; in signin mode it has no
username field. -/
def handleSubmit (mode : Mode) (fd : FormData) : Option SubmitData :=
  if validateForm mode fd = [] then
    some (match mode with
      | Mode.signup =>
          { email := fd.email, password := fd.password, username := some fd.username }
      | Mode.signin =>
          { email := fd.email, password := fd.password, username := none })
  else none

/-! ### Theorems -/

/-- C1 (counterexample): in general chat, a boot snapshot containing a
message whose `recipientId` is present (and equal to `0`) is displayed,
so the displayed history does contain a message with a non-null
`recipientId` — `!msg.recipientId` is true for `0`. -/
theorem boot_general_nonnull_recipient_cex :
    msgRecip0 ∈ (handleEvent generalState { messages := [], onlineUsers := [] }
        (ServerEvent.boot [msgRecip0] [])).messages
      ∧ msgRecip0.recipientId ≠ none := by
  decide

/-- C1 (amended): after a boot snapshot, in general chat every displayed
message has `recipientId` absent or `0` (JS falsiness treats `0` like
`null`); in a direct conversation with selected user `b` the displayed
history contains exactly the snapshot messages whose author/recipient
pair is {current user, `b`}. -/
theorem boot_filter_correct (st : ConvState) (cs : ClientState)
    (msgs : List ChatMessage) (users : List User) :
    (st.isDirectMessage = false →
      ∀ m ∈ (handleEvent st cs (ServerEvent.boot msgs users)).messages,
        m.recipientId = none ∨ m.recipientId = some 0) ∧
    (∀ b : User, st.isDirectMessage = true → st.selectedUser = some b →
      ∀ m : ChatMessage,
        (m ∈ (handleEvent st cs (ServerEvent.boot msgs users)).messages ↔
          m ∈ msgs ∧
            ((m.user.id = st.currentUser.id ∧ m.recipientId = some b.id) ∨
             (m.user.id = b.id ∧ m.recipientId = some st.currentUser.id)))) := by
  constructor
  · intro hdm m hm
    simp only [handleEvent, List.mem_filter] at hm
    have hacc := hm.2
    simp [bootAccept, hdm] at hacc
    cases hrec : m.recipientId with
    | none => exact Or.inl rfl
    | some n =>
      right
      rw [hrec] at hacc
      simp only [jsFalsyNum, beq_iff_eq] at hacc
      rw [hacc]
  · intro b hdm hsel m
    simp only [handleEvent, List.mem_filter]
    constructor
    · rintro ⟨hmem, hacc⟩
      refine ⟨hmem, ?_⟩
      simp [bootAccept, hdm, hsel] at hacc
      tauto
    · rintro ⟨hmem, hacc⟩
      refine ⟨hmem, ?_⟩
      simp [bootAccept, hdm, hsel]
      tauto

/-- C1 witness: the general-chat part of `boot_filter_correct` applied to
a concrete snapshot. -/
theorem boot_filter_correct_witness :
    msgFromB.recipientId = none ∨ msgFromB.recipientId = some 0 :=
  (boot_filter_correct generalState { messages := [], onlineUsers := [] }
      [msgFromB] []).1 rfl msgFromB (by decide)

/-- C2 (counterexample): the boot-snapshot predicate and the
live-delivery predicate are not extensionally equal over all conversation
states: with `isDirectMessage` set and no selected user, a plain general
message is accepted by the boot path but rejected by the live path. -/
theorem boot_live_predicates_differ_cex :
    ¬ (∀ (st : ConvState) (m : ChatMessage), bootAccept st m = msgAccept st m) :=
  fun h => absurd (h dmNoSelState msgFromB) (by decide)

/-- C2 (amended): in every conversation state in which direct-message
mode implies a selected user — the only states the UI handlers produce —
the boot-snapshot predicate and the live-delivery predicate accept
exactly the same messages. -/
theorem boot_live_predicates_agree (st : ConvState) (m : ChatMessage)
    (h : st.isDirectMessage = true → st.selectedUser.isSome = true) :
    bootAccept st m = msgAccept st m := by
  cases hdm : st.isDirectMessage with
  | false => simp [bootAccept, msgAccept, hdm]
  | true =>
    have hs := h hdm
    simp [bootAccept, msgAccept, hdm, hs]

/-- C2 witness: the agreement at a concrete direct-message state. -/
theorem boot_live_predicates_agree_witness :
    bootAccept dmStateB msgFromB = msgAccept dmStateB msgFromB :=
  boot_live_predicates_agree dmStateB msgFromB (fun _ => rfl)

/-- C3 (code bug): two `addReaction` attempts for the same `(user, emoji)`
pair are idempotent in the spec-modelled store (one entry, `u` once), and
the `reaction` event after each attempt carries that same entry; but the
client's reaction branch appends every received `reaction` event, so the
displayed reactions of message `"m1"` end up with two entries for the
same emoji instead of one entry per distinct emoji. -/
theorem reaction_event_append_duplicates_bug :
    (storeAddReaction (storeAddReaction [] "alice@mail.com" "👍") "alice@mail.com" "👍"
        = [{ emoji := "👍", users := ["alice@mail.com"] }]) ∧
    (storeReactionFor
        (storeAddReaction (storeAddReaction [] "alice@mail.com" "👍") "alice@mail.com" "👍") "👍"
        = some { emoji := "👍", users := ["alice@mail.com"] }) ∧
    ((handleEvent generalState
        (handleEvent generalState { messages := [msgM1], onlineUsers := [] }
          (ServerEvent.reaction "m1" { emoji := "👍", users := ["alice@mail.com"] }))
        (ServerEvent.reaction "m1" { emoji := "👍", users := ["alice@mail.com"] })).messages.map
          ChatMessage.reactions
        = [some [{ emoji := "👍", users := ["alice@mail.com"] },
                 { emoji := "👍", users := ["alice@mail.com"] }]]) := by
  decide

/-- C4: processing a `delete` event keeps exactly the messages whose id
differs from the deleted one — the result is the filtered list, a
subsequence of the original (no reordering, no modification), no
remaining message carries the deleted id, every other message survives,
and the online-user list is untouched. -/
theorem delete_event_filters_messages (st : ConvState) (cs : ClientState)
    (mid : String) :
    ((handleEvent st cs (ServerEvent.delete mid)).messages
        = cs.messages.filter (fun m => decide (m.id ≠ some mid))) ∧
    List.Sublist (handleEvent st cs (ServerEvent.delete mid)).messages cs.messages ∧
    (∀ m ∈ (handleEvent st cs (ServerEvent.delete mid)).messages, m.id ≠ some mid) ∧
    (∀ m ∈ cs.messages, m.id ≠ some mid →
        m ∈ (handleEvent st cs (ServerEvent.delete mid)).messages) ∧
    (handleEvent st cs (ServerEvent.delete mid)).onlineUsers = cs.onlineUsers := by
  have hfun : ∀ m : ChatMessage, (m.id != some mid) = decide (m.id ≠ some mid) := by
    intro m
    by_cases h : m.id = some mid <;> simp [h]
  refine ⟨?_, ?_, ?_, ?_, rfl⟩
  · exact List.filter_congr (fun m _ => hfun m)
  · exact List.filter_sublist _
  · intro m hm
    simp only [handleEvent, List.mem_filter] at hm
    have := hm.2
    rw [hfun] at this
    exact of_decide_eq_true this
  · intro m hm hne
    simp only [handleEvent, List.mem_filter]
    exact ⟨hm, by rw [hfun]; exact decide_eq_true hne⟩

/-- C4 witness: a message whose id differs from the deleted one is still
displayed after the `delete` event. -/
theorem delete_event_filters_messages_witness :
    msgFromB ∈ (handleEvent generalState
        { messages := [msgM1, msgFromB], onlineUsers := [] }
        (ServerEvent.delete "m1")).messages :=
  (delete_event_filters_messages generalState
      { messages := [msgM1, msgFromB], onlineUsers := [] } "m1").2.2.2.1
    msgFromB (by decide) (by decide)

/-- C5 (counterexample): an unparseable frame whose payload is a single
space (which is not valid JSON) is not appended as a plain-text message —
the message list stays empty, because the fallback drops payloads whose
trimmed text is empty. -/
theorem unparseable_frame_always_appended_cex :
    (handleRaw generalState { messages := [], onlineUsers := [] } " " 0 "t0").messages
      = [] := by
  decide

/-- C5 (amended): every unparseable frame whose trimmed payload is
non-empty is appended (not surfaced as an error) as a plain-text message
carrying the raw payload as content, attributed to the synthetic System
user, with `messageType` text, no recipient and no reply; frames whose
trimmed payload is empty are silently dropped. -/
theorem unparseable_frame_appended_iff_nonblank (st : ConvState)
    (cs : ClientState) (raw nowIso : String) (nowMs : Nat)
    (h : jsTrim raw ≠ "") :
    (handleRaw st cs raw nowMs nowIso).messages = cs.messages ++
      [{ id := some (toString nowMs)
         user := { id := 0, username := "System", email := "system" }
         content := raw, created_at := nowIso
         messageType := some MessageType.text
         fileUrl := none, fileName := none, fileSize := none
         replyTo := none, recipientId := none
         recipientUsername := none, recipientEmail := none
         reactions := none }] := by
  have hlen : (jsTrim raw).length > 0 := by
    rcases he : jsTrim raw with ⟨data⟩
    cases data with
    | nil => exact absurd he h
    | cons c cs' => exact Nat.succ_pos cs'.length
  simp only [handleRaw, if_pos hlen]

/-- C5 witness: the amended statement at a concrete non-blank payload. -/
theorem unparseable_frame_appended_iff_nonblank_witness :
    (handleRaw generalState { messages := [], onlineUsers := [] } "hello" 7 "t1").messages
      = [] ++
        [{ id := some (toString 7)
           user := { id := 0, username := "System", email := "system" }
           content := "hello", created_at := "t1"
           messageType := some MessageType.text
           fileUrl := none, fileName := none, fileSize := none
           replyTo := none, recipientId := none
           recipientUsername := none, recipientEmail := none
           reactions := none }] :=
  unparseable_frame_appended_iff_nonblank generalState
    { messages := [], onlineUsers := [] } "hello" "t1" 7 (by decide)

/-- C10: the plain-text fallback leaves the list unchanged when the
trimmed payload is empty, and every message it does add is attributed to
the synthetic `{id 0, "System", "system"}` user with `messageType` text
and no recipient — never to a real user. -/
theorem fallback_blank_drop_and_system_author (st : ConvState)
    (cs : ClientState) (raw nowIso : String) (nowMs : Nat) :
    (jsTrim raw = "" → handleRaw st cs raw nowMs nowIso = cs) ∧
    (∀ m ∈ (handleRaw st cs raw nowMs nowIso).messages, m ∉ cs.messages →
      m.user = { id := 0, username := "System", email := "system" } ∧
      m.messageType = some MessageType.text ∧ m.recipientId = none) := by
  constructor
  · intro h
    simp [handleRaw, h]
  · intro m hm hnotin
    by_cases hlen : (jsTrim raw).length > 0
    · simp only [handleRaw, if_pos hlen, List.mem_append, List.mem_singleton] at hm
      rcases hm with hin | heq
      · exact absurd hin hnotin
      · subst heq
        exact ⟨rfl, rfl, rfl⟩
    · simp only [handleRaw, if_neg hlen] at hm
      exact absurd hm hnotin

/-- C10 witness: a whitespace-only payload leaves the client state
unchanged. -/
theorem fallback_blank_drop_and_system_author_witness :
    handleRaw generalState { messages := [], onlineUsers := [] } "  " 3 "t2"
      = { messages := [], onlineUsers := [] } :=
  (fallback_blank_drop_and_system_author generalState
      { messages := [], onlineUsers := [] } "  " "t2" 3).1 (by decide)

/-- C6 (counterexample): with a selected user whose id is `0`,
`sendMessage` serialises `recipientId: null` instead of the selected
user's id — `selectedUser?.id || null` collapses id `0` to `null`. -/
theorem send_recipient_zero_cex :
    sendMessage dmZeroState
        = some (Frame.json "hi" none none (some MessageType.text) none none none) ∧
    dmZeroState.selectedUser = some userZero ∧ userZero.id = 0 ∧
    frameRecipientId
        (Frame.json "hi" none none (some MessageType.text) none none none)
      ≠ some userZero.id := by
  decide

/-- C6 (amended): if the trimmed input is empty or the socket is not
open, `sendMessage` sends no frame; otherwise, in direct-message mode or
when replying, it sends exactly one JSON frame whose content is the
trimmed input and `messageType` text, whose `replyTo` is the replied-to
message's id when present and truthy (non-empty) and `null` otherwise,
and whose `recipientId` is the selected user's id when a user is selected
and the id is truthy (non-zero) and `null` otherwise; in all other cases
it sends the trimmed input as a raw text frame. -/
theorem send_message_frames (st : SendState) :
    (jsTrim st.input = "" ∨ st.socketOpen = false → sendMessage st = none) ∧
    (jsTrim st.input ≠ "" → st.socketOpen = true →
      (st.isDirectMessage = true ∨ st.replyTo.isSome = true) →
      sendMessage st = some (Frame.json (jsTrim st.input)
        (jsReplyToField st.replyTo) (jsRecipientField st.selectedUser)
        (some MessageType.text) none none none)) ∧
    (jsTrim st.input ≠ "" → st.socketOpen = true →
      st.isDirectMessage = false → st.replyTo = none →
      sendMessage st = some (Frame.raw (jsTrim st.input))) := by
  refine ⟨?_, ?_, ?_⟩
  · intro h
    rcases h with h | h
    · simp [sendMessage, h]
    · simp [sendMessage, h]
  · intro hne hopen hmode
    have hguard : (jsTrim st.input == "" || !st.socketOpen) = false := by
      simp [hne, hopen]
    have hbranch : (st.isDirectMessage || st.replyTo.isSome) = true := by
      rcases hmode with h | h <;> simp [h]
    simp [sendMessage, hguard, hbranch]
  · intro hne hopen hdm hreply
    have hguard : (jsTrim st.input == "" || !st.socketOpen) = false := by
      simp [hne, hopen]
    simp [sendMessage, hguard, hdm, hreply]

/-- C6 witness: a direct message to `userB` with surrounding whitespace
in the input box. -/
theorem send_message_frames_witness :
    sendMessage { input := " hey ", isDirectMessage := true, replyTo := none
                  selectedUser := some userB, socketOpen := true }
      = some (Frame.json (jsTrim " hey ") (jsReplyToField none)
          (jsRecipientField (some userB)) (some MessageType.text) none none none) :=
  (send_message_frames
      { input := " hey ", isDirectMessage := true, replyTo := none
        selectedUser := some userB, socketOpen := true }).2.1
    (by decide) rfl (Or.inl rfl)

/-- Every quick-send emoji is a non-empty string. -/
theorem commonEmojis_ne_empty : ∀ e ∈ commonEmojis, e ≠ "" := by decide

/-- C7: every message-bearing frame the client can send — via
`sendMessage`, via `sendEmojiDirectly` with one of the quick-send emojis,
or via `handleFileUpload` after a successful upload — has non-empty
content or carries a `fileUrl`, so the Message Store's `ValidationError`
branch is unreachable for client-produced frames. -/
theorem client_frames_store_valid (st : SendState) (f : Frame)
    (e fileType : String) (resp : UploadResponse) :
    (sendMessage st = some f → storeValid f = true) ∧
    (e ∈ commonEmojis → sendEmojiDirectly st e = some f → storeValid f = true) ∧
    (handleFileUpload st resp fileType = some f → storeValid f = true) := by
  refine ⟨?_, ?_, ?_⟩
  · intro h
    simp only [sendMessage] at h
    split at h
    · exact absurd h (by simp)
    · next hguard =>
      have hne : jsTrim st.input ≠ "" := by
        intro hempty
        simp [hempty] at hguard
      split at h
      · cases h
        simp [storeValid, frameContent, frameFileUrl, hne]
      · cases h
        simp [storeValid, frameContent, frameFileUrl, hne]
  · intro hmem h
    have hne : e ≠ "" := commonEmojis_ne_empty e hmem
    simp only [sendEmojiDirectly] at h
    split at h
    · exact absurd h (by simp)
    · split at h
      · cases h
        simp [storeValid, frameContent, frameFileUrl, hne]
      · cases h
        simp [storeValid, frameContent, frameFileUrl, hne]
  · intro h
    simp only [handleFileUpload] at h
    split at h
    · exact absurd h (by simp)
    · cases h
      simp [storeValid, frameContent, frameFileUrl]

/-- C7 witness: the raw general-chat frame for input `"hi"` satisfies the
store's validation precondition. -/
theorem client_frames_store_valid_witness :
    storeValid (Frame.raw "hi") = true :=
  (client_frames_store_valid
      { input := "hi", isDirectMessage := false, replyTo := none
        selectedUser := none, socketOpen := true }
      (Frame.raw "hi") "👍" "text/plain"
      { fileUrl := "u", fileName := "n", fileSize := 1 }).1 (by decide)

/-- C8: with the conversation state fixed, processing a sequence of
`message` events appends exactly the accepted messages, in arrival
order, at the end of the displayed list — existing entries are never
reordered, modified or removed — and leaves the online-user list
untouched. -/
theorem message_events_append_in_order (st : ConvState) (cs : ClientState)
    (evs : List ChatMessage) :
    ((evs.foldl (fun c m => handleEvent st c (ServerEvent.message m)) cs).messages
        = cs.messages ++ evs.filter (msgAccept st)) ∧
    ((evs.foldl (fun c m => handleEvent st c (ServerEvent.message m)) cs).onlineUsers
        = cs.onlineUsers) := by
  induction evs generalizing cs with
  | nil => simp
  | cons m evs ih =>
    have hstep : handleEvent st cs (ServerEvent.message m)
        = (if msgAccept st m then { cs with messages := cs.messages ++ [m] } else cs) :=
      rfl
    cases hacc : msgAccept st m with
    | false =>
      rw [List.foldl_cons, hstep, if_neg (by simp [hacc])]
      have h := ih cs
      refine ⟨?_, h.2⟩
      rw [h.1]
      simp [List.filter_cons, hacc]
    | true =>
      rw [List.foldl_cons, hstep, if_pos hacc]
      have h := ih { cs with messages := cs.messages ++ [m] }
      refine ⟨?_, h.2⟩
      rw [h.1]
      simp [List.filter_cons, hacc]

/-- C9: `AuthForm` submits exactly when validation passes — the email is
non-empty and matches the `\S+@\S+\.\S+` pattern, the password has
length at least 6, and in signup mode the username is non-empty with
length at least 3 — and the signin payload carries only email and
password, with no username field. -/
theorem auth_submit_iff_valid (mode : Mode) (fd : FormData) :
    ((handleSubmit mode fd).isSome ↔
      (fd.email ≠ "" ∧ emailRegexTest fd.email = true ∧ 6 ≤ fd.password.length ∧
        (mode = Mode.signup → fd.username ≠ "" ∧ 3 ≤ fd.username.length))) ∧
    (∀ d : SubmitData, handleSubmit Mode.signin fd = some d →
      d = { email := fd.email, password := fd.password, username := none }) := by
  have hsub : ∀ md : Mode, (handleSubmit md fd).isSome ↔ validateForm md fd = [] := by
    intro md
    unfold handleSubmit
    split_ifs with h
    · simp [h]
    · simp [h]
  have hval : validateForm mode fd = [] ↔
      (fd.email ≠ "" ∧ emailRegexTest fd.email = true ∧ 6 ≤ fd.password.length ∧
        (mode = Mode.signup → fd.username ≠ "" ∧ 3 ≤ fd.username.length)) := by
    unfold validateForm
    cases mode with
    | signin =>
      split_ifs with h1 h2 h3 h4 <;> simp_all
    | signup =>
      split_ifs with h1 h2 h3 h4 h5 h6 <;> simp_all
  refine ⟨(hsub mode).trans hval, ?_⟩
  intro d hd
  unfold handleSubmit at hd
  split_ifs at hd with h
  injection hd with hd
  exact hd.symm

/-- C9 witness: a valid signin form submits. -/
theorem auth_submit_iff_valid_witness :
    (handleSubmit Mode.signin
        { email := "a@b.c", password := "secret1", username := "" }).isSome :=
  (auth_submit_iff_valid Mode.signin
      { email := "a@b.c", password := "secret1", username := "" }).1.mpr
    (by decide)

end ChatPP
